import Mathlib

/-!
Verification of the installation pipeline of `thus`
(`src/thus/installation/process.py`), a shallow embedding in Lean 4.

The embedding covers, faithfully translated from the source:
  * the rsync progress tracker `FileCopyThread` (lines 97-165),
  * the event / fatal-event reporting contract (`queue_event`,
    `queue_fatal_event`, lines 231-247),
  * the chroot special-directory mount / unmount lifecycle
    (`chroot_mount_special_dirs`, `chroot_umount_special_dirs`,
    lines 635-699),
  * the tail of `run_installation` (the try/except around the stages and
    the final unmount block, lines 431-538),
  * the fatal-abort behaviour of `install_system` (lines 550-633),
  * the fstab builder `auto_fstab` (lines 759-905).

External effects (subprocess calls, the filesystem) are modelled as traces:
commands executed, events queued, log records.  Machine integers are `Int`
(Python ints are unbounded); the float progress ratio is modelled as `Rat`
(every value produced here is a ratio of integer counters).
-/

namespace Thus

/-- Python substring membership: needle appears as a prefix of the list. -/
def startsW : List Char → List Char → Bool
  | [], _ => true
  | _ :: _, [] => false
  | a :: as, b :: bs => a = b && startsW as bs

/-- Python substring membership on char lists: needle occurs somewhere. -/
def subList (needle : List Char) : List Char → Bool
  | [] => startsW needle []
  | h :: t => startsW needle (h :: t) || subList needle t

/-- Python `needle in hay` on strings: substring containment. -/
def pyIn (needle hay : String) : Bool := subList needle.data hay.data

/-- Model of `os.path.join` for the relative second components used in the source:
`join("", b) = b`, `join(a, b) = a ++ "/" ++ b` otherwise. -/
def pyjoin (a b : String) : String := if a = "" then b else a ++ "/" ++ b

/-- Payload of one event on the callback queue: text, or the float progress
ratio of a `percent` event (an exact ratio of integer counters). -/
inductive EvPayload
  | txt (s : String)
  | num (q : ℚ)
  deriving Repr, DecidableEq

/-- One `(kind, payload)` tuple queued by `queue_event`. -/
structure Ev where
  kind : String
  payload : EvPayload
  deriving Repr, DecidableEq

/-! ### FileCopyThread (lines 97-165)

`run` reads rsync output lines and applies
`re.findall(r'xfr#(\d+), ir-chk=(\d+)/(\d+)', line)`; on a match it takes
the first match `m[0]` and uses groups 2 and 3 (remaining, total). -/

/-- Strip a literal prefix from a char list (helper for the regex match). -/
def stripPre : List Char → List Char → Option (List Char)
  | [], cs => some cs
  | _ :: _, [] => none
  | p :: ps, c :: cs => if p = c then stripPre ps cs else none

/-- Decimal value of a digit run, as `int()` applied to the matched group. -/
def toNatDigits (ds : List Char) : Nat :=
  ds.foldl (fun n c => 10 * n + (c.toNat - 48)) 0

/-- Match `xfr#(\d+), ir-chk=(\d+)/(\d+)` anchored at the head of the list,
returning (remaining, total): groups 2 and 3 of the source regex. -/
def matchAt (cs : List Char) : Option (Nat × Nat) :=
  match stripPre ("xfr#".data) cs with
  | none => none
  | some r1 =>
    let p1 := r1.span Char.isDigit
    if p1.1.isEmpty then none else
    match stripPre (", ir-chk=".data) p1.2 with
    | none => none
    | some r2 =>
      let p2 := r2.span Char.isDigit
      if p2.1.isEmpty then none else
      match stripPre ("/".data) p2.2 with
      | none => none
      | some r3 =>
        let p3 := r3.span Char.isDigit
        if p3.1.isEmpty then none else
        some (toNatDigits p2.1, toNatDigits p3.1)

/-- Leftmost match of the progress regex in the char list. -/
def findMatch : List Char → Option (Nat × Nat)
  | [] => none
  | c :: cs =>
    match matchAt (c :: cs) with
    | some r => some r
    | none => findMatch cs

/-- First `(remaining, total)` pair matched by the source regex in a line
(the `m[0]` of `re.findall`), if any. -/
def parseLine (line : String) : Option (Nat × Nat) := findMatch line.data

/-- Model of `FileCopyThread.update_progress` (lines 130-132): queues a `percent`
event with ratio `float(num_files) / float(self.total_files)`. -/
def update_progress (total_files num_files : Int) : Ev :=
  ⟨"percent", EvPayload.num ((num_files : ℚ) / (total_files : ℚ))⟩

/-- The body of the `for line in ...` loop of `FileCopyThread.run`
(lines 135-165).  `offset` is `self.offset` (constant during a run),
`total_files` is `self.total_files`; `nfc` is `num_files_copied`.
Returns the queued events and the final `num_files_copied`, which `run`
stores back into `self.offset` (line 165). -/
def copyLoop (offset total_files : Int) : List String → Int → List Ev × Int
  | [], nfc => ([], nfc)
  | l :: ls, nfc =>
    match parseLine l with
    | none => copyLoop offset total_files ls nfc
    | some (rem, tot) =>
      let copied : Int := (tot : Int) - (rem : Int) + offset
      let evs := if copied % 100 = 0 then [update_progress total_files copied] else []
      let rest := copyLoop offset total_files ls copied
      (evs ++ rest.1, rest.2)

/-- Model of `FileCopyThread.run` on a finished stream of output lines: events
queued, and the final offset (`self.offset` after the loop). -/
def fileCopyRun (offset total_files : Int) (lines : List String) : List Ev × Int :=
  copyLoop offset total_files lines 0

/-- The `copied` counter value computed for each line that matches the
progress regex, in stream order (`num_files_copied` at line 154). -/
def parsedCopied (offset : Int) : List String → List Int
  | [] => []
  | l :: ls =>
    match parseLine l with
    | none => parsedCopied offset ls
    | some (rem, tot) => ((tot : Int) - (rem : Int) + offset) :: parsedCopied offset ls

/-- The normalized ratio `float(c) / float(T)` published for a copied
count `c` against a job total `T`. -/
def ratioOf (T c : Int) : ℚ := (c : ℚ) / (T : ℚ)

/-- Ratios carried by the `percent` events of a trace, in order. -/
def percentValues (evs : List Ev) : List ℚ :=
  evs.filterMap (fun e =>
    match e with
    | ⟨"percent", EvPayload.num q⟩ => some q
    | _ => none)

/-! ### Chroot special-directory lifecycle (lines 635-699)

Mount / unmount of the special chroot directories, with the executed
`mount` / `umount` / `chmod` commands recorded as a trace.  The outcome of
each plain and lazy `umount` call is an oracle (`plainOk`, `lazyOk`),
since `subprocess.check_call` raises on the command's non-zero exit. -/

/-- State owned by the chroot lifecycle: the `self.special_dirs_mounted`
flag, the trace of external commands run, and the queued events. -/
structure ChrootState where
  special_dirs_mounted : Bool
  commands : List (List String)
  events : List Ev
  deriving Repr, DecidableEq

/-- The commands run by `chroot_mount_special_dirs` (lines 648-665), in
source order: sys (sysfs + chmod 555), proc (+ chmod), dev (bind),
dev/pts (devpts + chmod), and the EFI bind mount when `efi` is set.
`dest_dir` is `self.dest_dir`. -/
def mount_commands (efi : Bool) (dest_dir : String) : List (List String) :=
  [["mount", "-t", "sysfs", "/sys", pyjoin dest_dir "sys"],
   ["chmod", "555", pyjoin dest_dir "sys"],
   ["mount", "-t", "proc", "/proc", pyjoin dest_dir "proc"],
   ["chmod", "555", pyjoin dest_dir "proc"],
   ["mount", "-o", "bind", "/dev", pyjoin dest_dir "dev"],
   ["mount", "-t", "devpts", "/dev/pts", pyjoin dest_dir "dev/pts"],
   ["chmod", "555", pyjoin dest_dir "dev/pts"]]
  ++ (if efi then [["mount", "-o", "bind", "/sys/firmware/efi", pyjoin dest_dir "sys/firmware/efi"]] else [])

/-- The special directories in the order `chroot_mount_special_dirs`
mounts them (lines 648-665). -/
def mount_dirs_order (efi : Bool) : List String :=
  ["sys", "proc", "dev", "dev/pts"] ++ (if efi then ["sys/firmware/efi"] else [])

/-- The special directories in the order `chroot_umount_special_dirs`
unmounts them (lines 676-679 of the source, the two literal lists). -/
def umount_dirs_order (efi : Bool) : List String :=
  if efi then ["dev/pts", "sys/firmware/efi", "sys", "proc", "dev"]
  else ["dev/pts", "sys", "proc", "dev"]

/-- Model of `chroot_mount_special_dirs` (lines 635-667): a second call finds the
flag set and only queues the debug skip event (lines 638-640); otherwise
the mount commands run and the flag is set.  The `os.makedirs` calls for
missing directories are filesystem-local and not part of the command
trace. -/
def chroot_mount_special_dirs (efi : Bool) (dest_dir : String) (s : ChrootState) : ChrootState :=
  if s.special_dirs_mounted then
    { s with events := s.events ++ [⟨"debug", EvPayload.txt "Special dirs already mounted."⟩] }
  else
    { s with commands := s.commands ++ mount_commands efi dest_dir,
             special_dirs_mounted := true }

/-- One iteration of the unmount loop (lines 681-697): plain `umount`,
on `CalledProcessError` a lazy `umount -l`, and if that also fails a
`warning` event (the failure is logged, never re-raised). -/
def umount_step (plainOk lazyOk : String → Bool) (s : ChrootState) (mydir : String) : ChrootState :=
  if plainOk mydir then
    { s with commands := s.commands ++ [["umount", mydir]] }
  else if lazyOk mydir then
    { s with commands := s.commands ++ [["umount", mydir], ["umount", "-l", mydir]] }
  else
    { s with commands := s.commands ++ [["umount", mydir], ["umount", "-l", mydir]],
             events := s.events ++ [⟨"warning", EvPayload.txt ("Unable to umount " ++ mydir)⟩] }

/-- Model of `chroot_umount_special_dirs` (lines 669-699): a no-op (plus the debug
skip event, lines 672-674) when the flag is clear; otherwise the unmount
loop over `umount_dirs_order`, then the flag is cleared. -/
def chroot_umount_special_dirs (efi : Bool) (plainOk lazyOk : String → Bool)
    (dest_dir : String) (s : ChrootState) : ChrootState :=
  if s.special_dirs_mounted = false then
    { s with events := s.events ++ [⟨"debug", EvPayload.txt "Special dirs are not mounted. Skipping."⟩] }
  else
    let s1 := (umount_dirs_order efi).foldl
      (fun st d => umount_step plainOk lazyOk st (pyjoin dest_dir d)) s
    { s1 with special_dirs_mounted := false }

/-- The commands the unmount loop runs for one directory: the plain
`umount`, followed by the lazy retry exactly when the plain form fails. -/
def umount_cmds_for (plainOk : String → Bool) (mydir : String) : List (List String) :=
  if plainOk mydir then [["umount", mydir]]
  else [["umount", mydir], ["umount", "-l", mydir]]

/-- The warning event the unmount loop queues for one directory, present
exactly when both the plain and the lazy unmount fail. -/
def umount_warn_for (plainOk lazyOk : String → Bool) (mydir : String) : Option Ev :=
  if plainOk mydir then none
  else if lazyOk mydir then none
  else some ⟨"warning", EvPayload.txt ("Unable to umount " ++ mydir)⟩

/-! ### InstallationProcess pipeline state and fatal events (lines 182-247)

`PState` carries the controller flags set in `__init__` (lines 217-220)
plus two instrumentation traces: the queued events, and the list of
special chroot directories currently mounted (empty at `__init__`; only
`chroot_mount_special_dirs` would add to it, and it is first reached in
`configure_system`, after `install_system`). -/

structure PState where
  running : Bool
  error : Bool
  special_dirs_mounted : Bool
  mountedSpecialDirs : List String
  events : List Ev
  cleanups : Nat
  deriving Repr, DecidableEq

/-- Model of `queue_event` (lines 240-247): `put_nowait` of `(kind, payload)`.
A full queue drops the event; the trace records the emission attempts,
which is what the source performs exactly once per call. -/
def pqueue_event (k : String) (p : EvPayload) (s : PState) : PState :=
  { s with events := s.events ++ [⟨k, p⟩] }

/-- Model of `queue_fatal_event` (lines 231-238): sets `error`, clears `running`,
queues exactly one `error` event, waits for the consumer, and then the
process terminates via `os._exit(0)` (the caller never resumes). -/
def queue_fatal_event (txt : String) (s : PState) : PState :=
  pqueue_event "error" (EvPayload.txt txt) { s with error := true, running := false }

/-- State after `__init__` (lines 184-229): `running = True`,
`error = False`, `special_dirs_mounted = False`, nothing mounted, and the
single `info` event from line 195 (text from
`"Installing using the ... method".format(self.method)`). -/
def init_state : PState :=
  { running := true, error := false, special_dirs_mounted := false,
    mountedSpecialDirs := [], events := [⟨"info", EvPayload.txt "Installing using the automatic method"⟩],
    cleanups := 0 }

/-- State at entry to `install_system`: `run_installation` has queued the
`debug` event of line 434; lines 290-431 mount target partitions but never
the special chroot directories, so `mountedSpecialDirs` is still empty. -/
def pre_install_state : PState :=
  pqueue_event "debug" (EvPayload.txt "Install System ...") init_state

/-- Result of one `run_installation` call: the process terminated inside
`queue_fatal_event` (`os._exit`), the method returned, or an exception
escaped the method uncaught (`crashed` carries its message) — the last is
what a `NameError` inside the method produces, since `run()`'s handlers
(lines 263-277) cover neither it (its second `except` clause cannot even
be evaluated: it references `pyalpm`, which is never imported), so the
process dies with a traceback. -/
inductive RunResult
  | exited (s : PState)
  | returned (b : Bool) (s : PState)
  | crashed (err : String) (s : PState)
  deriving Repr, DecidableEq

/-- Final state carried by a `RunResult`. -/
def RunResult.state : RunResult → PState
  | .exited s => s
  | .returned _ s => s
  | .crashed _ s => s

/-- Outcome of the guarded stage block of `run_installation` (lines
433-469): the stages completed, raised `subprocess.CalledProcessError`,
raised `InstallError`, or raised some other exception — which the broad
`except Exception` handler at line 458 logs and swallows, leaving
`all_ok = True`. -/
inductive StageOutcome
  | ok
  | calledProcessError (out : String)
  | installError (msg : String)
  | otherSwallowed
  deriving Repr, DecidableEq

/-- The final unmount block of `run_installation` (lines 484-533) as the
source executes it.  Its first statement, line 485, calls the bare
module-level name `chroot_run_umount_special_dirs` — a name defined
nowhere: the module's only module-level helpers are `chroot_run` (line
77) and `write_file` (line 81), the unmount logic lives in the *method*
`self.chroot_umount_special_dirs`, and no import (all are explicit module
imports, no star import) nor builtin supplies the name.  The call
therefore raises `NameError` at once: none of the unmounts of lines
486-533 is ever issued, the `cleanups` counter (which would record one
execution of the unmount sequence) is never bumped, and the state is
untouched.  The success payload of the `Except` is never produced. -/
def finalize_cleanup (s : PState) : Except String PState :=
  Except.error "NameError: name chroot_run_umount_special_dirs is not defined"

/-- The tail of `run_installation` (lines 431-538) as a function of the
stage-block outcome.  On `CalledProcessError` / `InstallError` the handler
calls `queue_fatal_event`, which terminates the process (lines 450-457);
an unrecognized exception is swallowed with `all_ok = True` (lines
458-462); on the surviving path control reaches the cleanup block, whose
first statement raises `NameError` (see `finalize_cleanup`), so the
method crashes with the state unchanged — the `finished` event of line
535 and the `return True` of line 538 are dead code (that continuation is
kept below as the never-taken `Except.ok` branch). -/
def run_installation_tail (o : StageOutcome) (s : PState) : RunResult :=
  match o with
  | .calledProcessError out =>
      .exited (queue_fatal_event ("CalledProcessError.output = " ++ out) s)
  | .installError msg =>
      .exited (queue_fatal_event msg s)
  | .ok | .otherSwallowed =>
      match finalize_cleanup s with
      | Except.error e => .crashed e s
      | Except.ok s1 =>
          let s2 := pqueue_event "finished" (EvPayload.txt "Installation finished successfully.") s1
          .returned true { s2 with running := false, error := false }

/-! ### install_system (lines 550-633)

The stage's own event emissions on the happy path, and the state reached
when a fatal abort fires after a prefix of them.  Every fatal path of
`install_system` (missing media at lines 561-568, and the catch-all at
lines 628-630) goes through `queue_fatal_event`. -/

/-- The events `install_system` queues on the happy path (lines 589-619),
with the two copy jobs modelled by `fileCopyRun`; the second job starts at
the final offset of the first (line 611), and the stage ends with the
forced `percent 1.00` and the `progress-info` line (618-619).  The
`directory_times` list is always empty, so the loop at line 620 emits
nothing. -/
def install_system_happy_events (total : Int) (l1 l2 : List String) : List Ev :=
  [⟨"info", EvPayload.txt "Indexing files to be copied..."⟩,
   ⟨"info", EvPayload.txt "Indexing files to be copied ..."⟩,
   ⟨"info", EvPayload.txt "Extracting root-image ..."⟩]
  ++ (fileCopyRun 0 total l1).1
  ++ [⟨"info", EvPayload.txt "Extracting desktop-image ..."⟩]
  ++ (fileCopyRun (fileCopyRun 0 total l1).2 total l2).1
  ++ [⟨"percent", EvPayload.num 1⟩,
      ⟨"progress-info", EvPayload.txt (toString total ++ "/" ++ toString total ++ " ( 100.00 % )")⟩]

/-- A fatal abort injected during `install_system`: the stage has queued
the first `j` of its events, then `queue_fatal_event msg` runs and the
process terminates.  `install_system` never calls
`chroot_mount_special_dirs`, so the mounted list is untouched. -/
def install_system_aborted (total : Int) (l1 l2 : List String) (j : Nat)
    (msg : String) (s : PState) : PState :=
  queue_fatal_event msg
    { s with events := s.events ++ (install_system_happy_events total l1 l2).take j }

/-- Number of events of a given kind in a trace. -/
def countKind (k : String) (evs : List Ev) : Nat :=
  (evs.filter (fun e => e.kind == k)).length

/-! ### auto_fstab (lines 759-905)

The fstab builder.  `mount_devices` is the insertion-ordered mount-point →
device mapping, `fs_devices` maps device → filesystem type, `ssd` is the
set of SSD device identifiers (`self.ssd`), and `uuidOf` stands for the
external `fs.get_info(partition_path)['UUID']` lookup. -/

/-- The settings fields `auto_fstab` reads. -/
structure FstabSettings where
  method : String
  use_luks : Bool
  use_lvm : Bool
  luks_root_password : String
  deriving Repr, DecidableEq

/-- Result of `auto_fstab`: the fstab lines (`all_lines`), the lines
appended to `/etc/crypttab`, the `logging` records (level, message), and
the two settings the builder writes back (`btrfs`, `ruuid`). -/
structure FstabAcc where
  lines : List String
  crypttab : List String
  logs : List (String × String)
  btrfs : Bool
  ruuid : Option String
  deriving Repr, DecidableEq

/-- Python dict lookup on an insertion-ordered association list. -/
def lookupA (m : List (String × String)) (k : String) : Option String :=
  match m with
  | [] => none
  | (k', v) :: t => if k' = k then some v else lookupA t k

/-- Append one fstab line, with its `logging.debug` record. -/
def addLine (acc : FstabAcc) (txt : String) : FstabAcc :=
  { acc with lines := acc.lines ++ [txt],
             logs := acc.logs ++ [("debug", "Added to fstab : " ++ txt)] }

/-- Append one crypttab line, with its `logging.debug` record. -/
def addCrypt (acc : FstabAcc) (line : String) : FstabAcc :=
  { acc with crypttab := acc.crypttab ++ [line],
             logs := acc.logs ++ [("debug", "Added to crypttab : " ++ line)] }

/-- Swap mount options (lines 786-791): `discard` is added only when the
device path itself is a member of the SSD set (Python `in` on the
`self.ssd` container is exact membership). -/
def swap_opts (ssd : List String) (partition_path : String) : String :=
  if partition_path ∈ ssd then "defaults,discard" else "defaults"

/-- The `is_ssd` computation for non-swap entries (lines 854-858): true
when some SSD identifier occurs as a *substring* of the device path
(Python `ssd_device in partition_path` on strings). -/
def is_ssd_check (ssd : List String) (partition_path : String) : Bool :=
  ssd.any (fun ssd_device => pyIn ssd_device partition_path)

/-- The mount-option lookup table (lines 860-878). -/
def mount_opts (myfmt : String) (is_ssd : Bool) : String :=
  if !is_ssd then
    if pyIn "btrfs" myfmt then "defaults,rw,relatime,space_cache,autodefrag,inode_cache"
    else if pyIn "f2fs" myfmt then "defaults,rw,noatime"
    else if pyIn "ext3" myfmt || pyIn "ext4" myfmt then "defaults,rw,relatime,data=ordered"
    else "defaults,rw,relatime"
  else
    if myfmt = "ext4" ∨ myfmt = "jfs" ∨ myfmt = "xfs" then "defaults,rw,noatime,discard"
    else if myfmt = "btrfs" then "defaults,rw,noatime,compress=lzo,ssd,discard,space_cache,autodefrag,inode_cache"
    else "defaults,rw,noatime"

/-- One iteration of the `for mount_point in self.mount_devices` loop of
`auto_fstab` (lines 774-892), in source order: filesystem lookup (silent
`continue` when missing, lines 779-783), swap handling (786-795),
home-on-LUKS crypttab entry (797-821), advanced-mode LUKS entries
(823-836; `mount_point is not "/"` behaves as inequality on the interned
literal), fat normalization (839-840), the btrfs settings flag (842-843),
the empty-mount-point skip (846-847), SSD detection, the options table,
the root check flag and `ruuid` (854-892). -/
def fstab_entry (st : FstabSettings) (fs_devices : List (String × String))
    (ssd : List String) (uuidOf : String → String) (acc : FstabAcc)
    (e : String × String) : FstabAcc :=
  let mount_point := e.1
  let partition_path := e.2
  let uuid := uuidOf partition_path
  match lookupA fs_devices partition_path with
  | none => acc
  | some fmt0 =>
    if pyIn "swap" fmt0 then
      addLine acc ("UUID=" ++ uuid ++ " swap swap " ++ swap_opts ssd partition_path ++ " 0 0")
    else if pyIn "/home" mount_point && (st.method == "automatic") && st.use_luks && !st.use_lvm then
      let home_keyfile := if st.luks_root_password.length > 0 then "none" else "/etc/luks-keys/home"
      let acc1 := addCrypt acc ("cryptAntergosHome /dev/disk/by-uuid/" ++ uuid ++ " " ++ home_keyfile ++ " luks")
      addLine acc1 ("/dev/mapper/cryptAntergosHome " ++ mount_point ++ " " ++ fmt0 ++ " defaults 0 0")
    else if (st.method == "advanced") && !(mount_point == "/") && st.use_luks && pyIn "/dev/mapper" partition_path then
      let vol_name := String.mk (partition_path.data.drop ("/dev/mapper/".length))
      let acc1 := addCrypt acc (vol_name ++ " /dev/disk/by-uuid/" ++ uuid ++ " none luks")
      addLine acc1 (partition_path ++ " " ++ mount_point ++ " " ++ fmt0 ++ " defaults 0 0")
    else
      let myfmt := if pyIn "fat" fmt0 then "vfat" else fmt0
      let acc1 := if pyIn "btrfs" myfmt then { acc with btrfs := true } else acc
      if mount_point == "" then acc1
      else
        let opts := mount_opts myfmt (is_ssd_check ssd partition_path)
        let chk := if mount_point == "/" && !(myfmt == "btrfs" || myfmt == "f2fs") then "1" else "0"
        let acc2 := if mount_point == "/" then { acc1 with ruuid := some uuid } else acc1
        addLine acc2 ("UUID=" ++ uuid ++ " " ++ mount_point ++ " " ++ myfmt ++ " " ++ opts ++ " 0 " ++ chk)

/-- The fixed header comment lines of the generated fstab (lines 762-769). -/
def fstab_header : List String :=
  ["# /etc/fstab: static file system information.",
   "#",
   "# Use \x27blkid\x27 to print the universally unique identifier for a",
   "# device; this may be used with UUID= as a more robust way to name devices",
   "# that works even if disks are added and removed. See fstab(5).",
   "#",
   "# <file system> <mount point>   <type>  <options>       <dump>  <pass>",
   "#"]

/-- Model of `auto_fstab` (lines 759-905): the header, one pass over
`mount_devices`, and the unconditional trailing `tmpfs /tmp` entry
(lines 894-897). -/
def auto_fstab (st : FstabSettings) (mount_devices fs_devices : List (String × String))
    (ssd : List String) (uuidOf : String → String) : FstabAcc :=
  let acc0 : FstabAcc :=
    { lines := fstab_header, crypttab := [], logs := [], btrfs := false, ruuid := none }
  let acc1 := mount_devices.foldl (fstab_entry st fs_devices ssd uuidOf) acc0
  addLine acc1 "tmpfs /tmp tmpfs defaults,noatime,mode=1777 0 0"

/-- The DeviceMap of the C8 scenario, in insertion order. -/
def demo_mounts : List (String × String) :=
  [("/", "/dev/sda2"), ("/boot", "/dev/sda1"), ("swap", "/dev/sda3")]

/-- The FilesystemMap of the C8 scenario. -/
def demo_fs : List (String × String) :=
  [("/dev/sda2", "ext4"), ("/dev/sda1", "ext4"), ("/dev/sda3", "swap")]

/-- Stand-in for the external `fs.get_info(...)['UUID']` lookup in the
concrete scenarios: the device path itself tagged as a UUID. -/
def demo_uuid : String → String := fun d => "uuid-" ++ d

/-! ### Helper lemmas -/

/-- Trace shape of the unmount loop over any directory list.  The flag is
untouched by the loop itself. -/
theorem umount_fold_trace (plainOk lazyOk : String → Bool) (dd : String)
    (l : List String) (s : ChrootState) :
    (l.foldl (fun st d => umount_step plainOk lazyOk st (pyjoin dd d)) s).commands
        = s.commands ++ (l.map (fun d => umount_cmds_for plainOk (pyjoin dd d))).flatten
    ∧ (l.foldl (fun st d => umount_step plainOk lazyOk st (pyjoin dd d)) s).events
        = s.events ++ l.filterMap (fun d => umount_warn_for plainOk lazyOk (pyjoin dd d))
    ∧ (l.foldl (fun st d => umount_step plainOk lazyOk st (pyjoin dd d)) s).special_dirs_mounted
        = s.special_dirs_mounted := by
  induction l generalizing s with
  | nil => simp
  | cons d t ih =>
    obtain ⟨ih1, ih2, ih3⟩ := ih (umount_step plainOk lazyOk s (pyjoin dd d))
    refine ⟨?_, ?_, ?_⟩
    · rw [List.foldl_cons, ih1, List.map_cons, List.flatten_cons]
      simp only [umount_step, umount_cmds_for]
      split_ifs <;> simp [List.append_assoc]
    · rw [List.foldl_cons, ih2, List.filterMap_cons]
      simp only [umount_step, umount_warn_for]
      split_ifs <;> simp [List.append_assoc]
    · rw [List.foldl_cons, ih3]
      simp only [umount_step]
      split_ifs <;> rfl

/-- Every event the copy loop queues is a `percent` event
(`update_progress` is its only emission site). -/
theorem copyLoop_kinds (offset T : Int) (ls : List String) (nfc : Int) :
    ∀ e ∈ (copyLoop offset T ls nfc).1, e.kind = "percent" := by
  induction ls generalizing nfc with
  | nil => simp [copyLoop]
  | cons l t ih =>
    intro e he
    simp only [copyLoop] at he
    cases hp : parseLine l with
    | none =>
      rw [hp] at he
      exact ih nfc e he
    | some p =>
      obtain ⟨rem, tot⟩ := p
      rw [hp] at he
      simp only [List.mem_append] at he
      rcases he with h1 | h2
      · split at h1
        · rcases List.mem_singleton.mp h1 with rfl
          rfl
        · exact absurd h1 (List.not_mem_nil e)
      · exact ih _ e h2

/-- The `percent` ratios queued by the copy loop are exactly the parsed
`copied` counters that hit the coalescing factor, divided by the job
total. -/
theorem percentValues_copyLoop (offset T : Int) (ls : List String) (nfc : Int) :
    percentValues (copyLoop offset T ls nfc).1
      = ((parsedCopied offset ls).filter (fun c => c % 100 = 0)).map (ratioOf T) := by
  induction ls generalizing nfc with
  | nil => simp [copyLoop, parsedCopied, percentValues]
  | cons l t ih =>
    cases hp : parseLine l with
    | none =>
      have h1 : copyLoop offset T (l :: t) nfc = copyLoop offset T t nfc := by
        simp only [copyLoop, hp]
      have h2 : parsedCopied offset (l :: t) = parsedCopied offset t := by
        simp only [parsedCopied, hp]
      rw [h1, h2, ih]
    | some p =>
      obtain ⟨rem, tot⟩ := p
      have h2 : parsedCopied offset (l :: t)
          = ((tot : Int) - (rem : Int) + offset) :: parsedCopied offset t := by
        simp only [parsedCopied, hp]
      by_cases hc : ((tot : Int) - (rem : Int) + offset) % 100 = 0
      · have h1 : (copyLoop offset T (l :: t) nfc).1
            = update_progress T ((tot : Int) - (rem : Int) + offset)
              :: (copyLoop offset T t ((tot : Int) - (rem : Int) + offset)).1 := by
          simp only [copyLoop, hp, if_pos hc, List.singleton_append]
        rw [h1, h2, List.filter_cons_of_pos (by simpa using hc), List.map_cons]
        have hpv : ∀ (c : Int) (r : List Ev),
            percentValues (update_progress T c :: r) = ratioOf T c :: percentValues r := by
          intro c r
          simp [percentValues, update_progress, ratioOf, List.filterMap_cons]
        rw [hpv, ih]
      · have h1 : (copyLoop offset T (l :: t) nfc).1
            = (copyLoop offset T t ((tot : Int) - (rem : Int) + offset)).1 := by
          simp only [copyLoop, hp, if_neg hc, List.nil_append]
        rw [h1, h2, List.filter_cons_of_neg (by simpa using hc)]
        rw [ih]

/-- Monotone parsed counters give monotone emitted ratios (positive job
total). -/
theorem percent_monotone (offset T : Int) (hT : 0 < T) (ls : List String)
    (h : List.Chain' (fun a b => a ≤ b) (parsedCopied offset ls)) :
    List.Chain' (fun a b => a ≤ b) (percentValues (fileCopyRun offset T ls).1) := by
  rw [fileCopyRun, percentValues_copyLoop]
  have hp : (parsedCopied offset ls).Pairwise (fun a b => a ≤ b) :=
    List.chain'_iff_pairwise.mp h
  have hf : ((parsedCopied offset ls).filter (fun c => c % 100 = 0)).Pairwise
      (fun a b => a ≤ b) :=
    List.Pairwise.sublist (List.filter_sublist _) hp
  have hm : (((parsedCopied offset ls).filter (fun c => c % 100 = 0)).map
      (ratioOf T)).Pairwise (fun a b => a ≤ b) := by
    refine List.Pairwise.map _ ?_ hf
    intro a b hab
    have hT' : (0 : ℚ) < (T : ℚ) := by exact_mod_cast hT
    have hab' : (a : ℚ) ≤ (b : ℚ) := by exact_mod_cast hab
    exact (div_le_div_iff_of_pos_right hT').mpr hab'
  exact List.chain'_iff_pairwise.mpr hm

/-- Lemma: `percentValues` distributes over trace concatenation. -/
theorem percentValues_append (a b : List Ev) :
    percentValues (a ++ b) = percentValues a ++ percentValues b := by
  simp [percentValues, List.filterMap_append]

/-- The last `percent` ratio of the whole extraction stage is the forced
`1.00` of line 618. -/
theorem extract_final_percent (total : Int) (l1 l2 : List String) :
    (percentValues (install_system_happy_events total l1 l2)).getLast? = some 1 := by
  unfold install_system_happy_events
  rw [percentValues_append, percentValues_append, percentValues_append, percentValues_append]
  have htail : percentValues
      [⟨"percent", EvPayload.num 1⟩,
       ⟨"progress-info", EvPayload.txt (toString total ++ "/" ++ toString total ++ " ( 100.00 % )")⟩]
      = [1] := by
    simp [percentValues]
  rw [htail]
  exact List.getLast?_concat _

/-! ### Claims about the copy progress tracker (C4, C5, C6) -/

/-- Claim C6: for every output line consumed by a copy job, a line whose
first regex match yields `(remaining, total)` makes the tracker compute
`copied = total - remaining + offset` and queue the `percent` event with
ratio `copied / total_files` exactly when `copied` is a multiple of 100;
a line with no match queues nothing. -/
theorem percent_emission_rule (offset total_files : Int) (l : String) :
    (parseLine l = none → (fileCopyRun offset total_files [l]).1 = [])
    ∧ (∀ rem tot, parseLine l = some (rem, tot) →
        ((((tot : Int) - (rem : Int) + offset) % 100 = 0 →
            (fileCopyRun offset total_files [l]).1
              = [update_progress total_files ((tot : Int) - (rem : Int) + offset)])
         ∧ (((tot : Int) - (rem : Int) + offset) % 100 ≠ 0 →
            (fileCopyRun offset total_files [l]).1 = []))) := by
  constructor
  · intro h
    simp [fileCopyRun, copyLoop, h]
  · intro rem tot h
    constructor <;> intro hc <;> simp [fileCopyRun, copyLoop, h, hc]

/-- Witness for C6 at a concrete line: `ir-chk=40/140` with offset 0 hits
the coalescing factor (`copied = 100`) and the event is queued. -/
theorem percent_emission_rule_witness :
    (fileCopyRun 0 200 ["xfr#1, ir-chk=40/140"]).1
      = [update_progress 200 (((140 : Nat) : Int) - ((40 : Nat) : Int) + 0)] :=
  ((percent_emission_rule 0 200 "xfr#1, ir-chk=40/140").2 40 140 (by decide)).1 (by decide)

/-- Counterexample to claim C5 as stated: on the scenario's line
(`remaining/total = 40/100`, offset 0, overall total 200) no `percent`
event at all is queued — in particular none with ratio `0.30` — because
`copied = 60` is not a multiple of the coalescing factor 100. -/
theorem no_event_at_forty_of_hundred :
    (fileCopyRun 0 200 ["xfr#1, ir-chk=40/100"]).1 = []
    ∧ ¬ ((fileCopyRun 0 200 ["xfr#1, ir-chk=40/100"]).1
          = [update_progress 200 60]) := by
  refine ⟨by decide, ?_⟩
  intro h
  have : ([] : List Ev) = [update_progress 200 60] := by
    rw [← h]
    decide
  simp at this

/-- Claim C5 amended: the tracker parses `(40, 100)`, computes
`copied = 100 - 40 + 0 = 60` whose ratio against the overall total 200
would be `0.30`, but queues no event since 60 is not a multiple of 100. -/
theorem forty_of_hundred_amended :
    parseLine "xfr#1, ir-chk=40/100" = some (40, 100)
    ∧ ((100 : Int) - 40 + 0) = 60
    ∧ ((100 : Int) - 40 + 0) % 100 ≠ 0
    ∧ (fileCopyRun 0 200 ["xfr#1, ir-chk=40/100"]).1 = []
    ∧ ratioOf 200 60 = 3 / 10 := by
  refine ⟨by decide, by decide, by decide, by decide, ?_⟩
  unfold ratioOf
  norm_num

/-- Counterexample to claim C4 as stated: a copy job is fed whatever
lines the tool prints, and for the line sequence
`ir-chk=0/200`, `ir-chk=0/100` (total 400) the queued `percent` ratios
are `0.5` then `0.25` — not monotonically non-decreasing within one job. -/
theorem copy_progress_not_monotone :
    percentValues (fileCopyRun 0 400 ["xfr#1, ir-chk=0/200", "xfr#2, ir-chk=0/100"]).1
      = [ratioOf 400 200, ratioOf 400 100]
    ∧ ¬ List.Chain' (fun a b => a ≤ b)
        (percentValues (fileCopyRun 0 400 ["xfr#1, ir-chk=0/200", "xfr#2, ir-chk=0/100"]).1) := by
  have h1 : parseLine "xfr#1, ir-chk=0/200" = some (0, 200) := by decide
  have h2 : parseLine "xfr#2, ir-chk=0/100" = some (0, 100) := by decide
  have hv : percentValues (fileCopyRun 0 400 ["xfr#1, ir-chk=0/200", "xfr#2, ir-chk=0/100"]).1
      = [ratioOf 400 200, ratioOf 400 100] := by
    rw [fileCopyRun, percentValues_copyLoop]
    simp [parsedCopied, h1, h2, List.filter_cons]
    rw [if_pos (by norm_num : (100 : Int) ∣ 200)]
    simp
  refine ⟨hv, ?_⟩
  rw [hv]
  simp only [List.chain'_cons, List.chain'_singleton, and_true]
  intro hle
  have : ¬ ((200 : ℚ) / 400 ≤ 100 / 400) := by norm_num
  exact this hle

/-- Claim C4 amended: within one copy job the queued `percent` ratios are
monotonically non-decreasing whenever the parsed `copied` counters of the
job's lines are non-decreasing (which holds for the real copy tool) and
the job total is positive; and across the whole extraction stage (two
jobs, the second starting at the first job's final offset) the last
reported `percent` value is exactly `1.00`. -/
theorem copy_progress_monotone_and_final (total : Int) (l1 l2 : List String)
    (hT : 0 < total)
    (h1 : List.Chain' (fun a b => a ≤ b) (parsedCopied 0 l1))
    (h2 : List.Chain' (fun a b => a ≤ b) (parsedCopied (fileCopyRun 0 total l1).2 l2)) :
    List.Chain' (fun a b => a ≤ b) (percentValues (fileCopyRun 0 total l1).1)
    ∧ List.Chain' (fun a b => a ≤ b)
        (percentValues (fileCopyRun (fileCopyRun 0 total l1).2 total l2).1)
    ∧ (percentValues (install_system_happy_events total l1 l2)).getLast? = some 1 :=
  ⟨percent_monotone 0 total hT l1 h1,
   percent_monotone (fileCopyRun 0 total l1).2 total hT l2 h2,
   extract_final_percent total l1 l2⟩

/-- Witness for the amended C4 on a concrete two-job run. -/
theorem copy_progress_monotone_and_final_witness :
    List.Chain' (fun a b => a ≤ b)
      (percentValues (fileCopyRun 0 200 ["xfr#1, ir-chk=40/140"]).1)
    ∧ List.Chain' (fun a b => a ≤ b)
        (percentValues (fileCopyRun (fileCopyRun 0 200 ["xfr#1, ir-chk=40/140"]).2 200
          ["xfr#1, ir-chk=40/140"]).1)
    ∧ (percentValues (install_system_happy_events 200 ["xfr#1, ir-chk=40/140"]
        ["xfr#1, ir-chk=40/140"])).getLast? = some 1 :=
  copy_progress_monotone_and_final 200 ["xfr#1, ir-chk=40/140"] ["xfr#1, ir-chk=40/140"]
    (by decide)
    (by rw [show parsedCopied 0 ["xfr#1, ir-chk=40/140"] = [100] from by decide]
        exact List.chain'_singleton _)
    (by rw [show parsedCopied (fileCopyRun 0 200 ["xfr#1, ir-chk=40/140"]).2
            ["xfr#1, ir-chk=40/140"] = [200] from by decide]
        exact List.chain'_singleton _)

/-! ### Claims about the pipeline controller (C1, C2) -/

/-- Lemma: `countKind` distributes over trace concatenation. -/
theorem countKind_append (k : String) (a b : List Ev) :
    countKind k (a ++ b) = countKind k a + countKind k b := by
  simp [countKind, List.filter_append]

/-- A trace with no event of kind `k` counts zero. -/
theorem countKind_eq_zero_of (k : String) (evs : List Ev)
    (h : ∀ e ∈ evs, e.kind ≠ k) : countKind k evs = 0 := by
  induction evs with
  | nil => rfl
  | cons e t ih =>
    have hek : (e.kind == k) = false := beq_eq_false_iff_ne.mpr (h e (by simp))
    have ht := ih (fun x hx => h x (by simp [hx]))
    simp only [countKind, List.filter_cons, hek] at ht ⊢
    simpa using ht

/-- The happy-path trace of `install_system` contains no `error` event:
the stage queues only `info`, `percent` and `progress-info` events. -/
theorem countKind_error_happy (total : Int) (l1 l2 : List String) :
    countKind "error" (install_system_happy_events total l1 l2) = 0 := by
  have hcopy : ∀ (off : Int) (ls : List String),
      countKind "error" (fileCopyRun off total ls).1 = 0 := fun off ls =>
    countKind_eq_zero_of _ _ (fun e he => by
      rw [copyLoop_kinds off total ls 0 e he]
      decide)
  unfold install_system_happy_events
  rw [countKind_append, countKind_append, countKind_append, countKind_append,
    hcopy, hcopy]
  simp [countKind]

/-- Claim C2: a fatal abort injected at any point of `install_system`
(after `j` of the stage's events, with any abort message) leaves the
pipeline failed — `running = False`, `error = True` — with exactly one
`error` event emitted before the process terminates, and with no special
chroot directory mounted (none had been mounted before or during this
stage, so all previously-mounted special directories are unmounted,
vacuously). -/
theorem install_system_fatal_abort (total : Int) (l1 l2 : List String)
    (j : Nat) (msg : String) :
    (install_system_aborted total l1 l2 j msg pre_install_state).running = false
    ∧ (install_system_aborted total l1 l2 j msg pre_install_state).error = true
    ∧ countKind "error" (install_system_aborted total l1 l2 j msg pre_install_state).events = 1
    ∧ (install_system_aborted total l1 l2 j msg pre_install_state).mountedSpecialDirs = [] := by
  refine ⟨rfl, rfl, ?_, rfl⟩
  show countKind "error"
      ((pre_install_state.events ++ (install_system_happy_events total l1 l2).take j)
        ++ [⟨"error", EvPayload.txt msg⟩]) = 1
  rw [countKind_append, countKind_append]
  have h0 : countKind "error" pre_install_state.events = 0 := by decide
  have h1 : countKind "error" ((install_system_happy_events total l1 l2).take j) = 0 := by
    have hle : countKind "error" ((install_system_happy_events total l1 l2).take j)
        ≤ countKind "error" (install_system_happy_events total l1 l2) :=
      List.Sublist.length_le (List.Sublist.filter _ (List.take_sublist j _))
    rw [countKind_error_happy] at hle
    omega
  have h2 : countKind "error" [⟨"error", EvPayload.txt msg⟩] = 1 := by
    simp [countKind]
  rw [h0, h1, h2]

/-- Counterexample to claim C1 as stated: when the stage block raises a
recognized failure (`subprocess.CalledProcessError`), the run terminates
inside `queue_fatal_event` with the cleanup sequence never executed — not
exactly once; and even on the surviving path the cleanup sequence is not
executed, because its first statement raises `NameError`. -/
theorem run_tail_failure_no_cleanup :
    (run_installation_tail (StageOutcome.calledProcessError "boom") pre_install_state).state.cleanups = 0
    ∧ ¬ ((run_installation_tail (StageOutcome.calledProcessError "boom")
          pre_install_state).state.cleanups = 1)
    ∧ ¬ ((run_installation_tail StageOutcome.ok pre_install_state).state.cleanups = 1) := by decide

/-- Claim C1 amended: the cleanup sequence of `run_installation` never
executes — zero times, not once — whatever the stage-block outcome, and
the run never returns normally.  On a recognized failure
(`CalledProcessError` or `InstallError`) the run terminates the process
inside `queue_fatal_event` with `error = True`, `running = False` and the
cleanup sequence not executed; when the stage block survives, the first
statement of the cleanup block (line 485) calls the undefined module
name `chroot_run_umount_special_dirs` and the method crashes with a
`NameError`, the state untouched — no cleanup unmount is issued and the
`finished` event is never queued. -/
theorem run_tail_cleanup_never_executes (o : StageOutcome) (s : PState) :
    ((run_installation_tail o s).state.cleanups = s.cleanups)
    ∧ (∀ b t, run_installation_tail o s ≠ RunResult.returned b t)
    ∧ ((o = StageOutcome.ok ∨ o = StageOutcome.otherSwallowed) →
        run_installation_tail o s
          = RunResult.crashed "NameError: name chroot_run_umount_special_dirs is not defined" s)
    ∧ (∀ out, o = StageOutcome.calledProcessError out →
        ∃ t, run_installation_tail o s = RunResult.exited t
          ∧ t.cleanups = s.cleanups ∧ t.error = true ∧ t.running = false)
    ∧ (∀ msg, o = StageOutcome.installError msg →
        ∃ t, run_installation_tail o s = RunResult.exited t
          ∧ t.cleanups = s.cleanups ∧ t.error = true ∧ t.running = false) := by
  cases o with
  | ok =>
    exact ⟨rfl, fun b t h => RunResult.noConfusion h, fun _ => rfl,
      fun out h => by simp at h, fun msg h => by simp at h⟩
  | otherSwallowed =>
    exact ⟨rfl, fun b t h => RunResult.noConfusion h, fun _ => rfl,
      fun out h => by simp at h, fun msg h => by simp at h⟩
  | calledProcessError out =>
    exact ⟨rfl, fun b t h => RunResult.noConfusion h,
      fun h => by rcases h with h | h <;> simp at h,
      fun out' h => ⟨_, rfl, rfl, rfl, rfl⟩, fun msg h => by simp at h⟩
  | installError msg =>
    exact ⟨rfl, fun b t h => RunResult.noConfusion h,
      fun h => by rcases h with h | h <;> simp at h,
      fun out h => by simp at h, fun msg' h => ⟨_, rfl, rfl, rfl, rfl⟩⟩

/-- Witness for the amended C1: a surviving stage block crashes on the
undefined cleanup name with the state untouched. -/
theorem run_tail_cleanup_never_executes_witness :
    run_installation_tail StageOutcome.ok init_state
      = RunResult.crashed "NameError: name chroot_run_umount_special_dirs is not defined"
          init_state :=
  (run_tail_cleanup_never_executes StageOutcome.ok init_state).2.2.1 (Or.inl rfl)

/-! ### Claims about the chroot lifecycle (C3, C7) -/

/-- Counterexample to claim C3 as stated: for both the EFI and the
non-EFI sets, the unmount order hard-coded at lines 676-679 is not the
reverse of the mount order of lines 648-665 (the reverse would put the
EFI bind mount first and `dev` before `proc` and `sys`). -/
theorem umount_not_reverse_of_mount :
    (mount_dirs_order true).reverse ≠ umount_dirs_order true
    ∧ (mount_dirs_order false).reverse ≠ umount_dirs_order false := by decide

/-- Claim C3 amended: `chroot_umount_special_dirs` unmounts exactly the
directories of the mount set — a permutation of the mount order, though
not its exact reverse — and for each directory the plain `umount` that
fails is retried with the lazy `umount -l`, a failure of which is
downgraded to a `warning` event (never an error). -/
theorem chroot_umount_trace (efi : Bool) (plainOk lazyOk : String → Bool)
    (dest_dir : String) (s : ChrootState) (h : s.special_dirs_mounted = true) :
    (chroot_umount_special_dirs efi plainOk lazyOk dest_dir s).commands
      = s.commands ++ ((umount_dirs_order efi).map
          (fun d => umount_cmds_for plainOk (pyjoin dest_dir d))).flatten
    ∧ (chroot_umount_special_dirs efi plainOk lazyOk dest_dir s).events
      = s.events ++ (umount_dirs_order efi).filterMap
          (fun d => umount_warn_for plainOk lazyOk (pyjoin dest_dir d))
    ∧ (chroot_umount_special_dirs efi plainOk lazyOk dest_dir s).special_dirs_mounted = false
    ∧ (umount_dirs_order efi).Perm (mount_dirs_order efi)
    ∧ umount_dirs_order efi ≠ (mount_dirs_order efi).reverse := by
  have hfold := umount_fold_trace plainOk lazyOk dest_dir (umount_dirs_order efi) s
  unfold chroot_umount_special_dirs
  rw [if_neg (by rw [h]; simp)]
  exact ⟨hfold.1, hfold.2.1, rfl, by cases efi <;> decide, by cases efi <;> decide⟩

/-- Witness for the amended C3: EFI set, plain unmount failing everywhere
and the lazy retry also failing everywhere. -/
theorem chroot_umount_trace_witness :
    (chroot_umount_special_dirs true (fun _ => false) (fun _ => false) "/install"
        ⟨true, [], []⟩).commands
      = ([] : List (List String)) ++ ((umount_dirs_order true).map
          (fun d => umount_cmds_for (fun _ => false) (pyjoin "/install" d))).flatten :=
  (chroot_umount_trace true (fun _ => false) (fun _ => false) "/install" ⟨true, [], []⟩ rfl).1

/-- Claim C7: the special-directory mount and unmount are idempotent via
the `special_dirs_mounted` flag — a second `mount` call runs no commands
and only queues the debug skip event, and an `unmount` call with nothing
mounted runs no commands and only queues its debug skip event. -/
theorem special_dirs_idempotent (efi : Bool) (plainOk lazyOk : String → Bool)
    (dest_dir : String) (s : ChrootState) (h : s.special_dirs_mounted = false) :
    (chroot_mount_special_dirs efi dest_dir s).commands
        = s.commands ++ mount_commands efi dest_dir
    ∧ (chroot_mount_special_dirs efi dest_dir (chroot_mount_special_dirs efi dest_dir s))
        = { chroot_mount_special_dirs efi dest_dir s with
            events := (chroot_mount_special_dirs efi dest_dir s).events
              ++ [⟨"debug", EvPayload.txt "Special dirs already mounted."⟩] }
    ∧ (chroot_mount_special_dirs efi dest_dir (chroot_mount_special_dirs efi dest_dir s)).commands
        = s.commands ++ mount_commands efi dest_dir
    ∧ chroot_umount_special_dirs efi plainOk lazyOk dest_dir s
        = { s with events := s.events
              ++ [⟨"debug", EvPayload.txt "Special dirs are not mounted. Skipping."⟩] }
    ∧ (chroot_umount_special_dirs efi plainOk lazyOk dest_dir s).commands = s.commands := by
  simp [chroot_mount_special_dirs, chroot_umount_special_dirs, h]

/-- Witness for C7 at a concrete state. -/
theorem special_dirs_idempotent_witness :
    (chroot_mount_special_dirs true "/install"
        (chroot_mount_special_dirs true "/install" ⟨false, [], []⟩)).commands
      = ([] : List (List String)) ++ mount_commands true "/install" :=
  (special_dirs_idempotent true (fun _ => true) (fun _ => true) "/install"
    ⟨false, [], []⟩ rfl).2.2.1

/-! ### Claims about the fstab builder (C8, C9, C10) -/

/-- Claim C8: for the DeviceMap `/ → /dev/sda2`, `/boot → /dev/sda1`,
`swap → /dev/sda3`, the FilesystemMap `ext4/ext4/swap` and an empty
SsdSet, the generated fstab contains a swap line with options `defaults`,
a `/` line whose options contain `data=ordered` with check flag `1`, and
its last line is the fixed `tmpfs /tmp` entry. -/
theorem auto_fstab_demo_scenario :
    ((auto_fstab ⟨"automatic", false, false, ""⟩ demo_mounts demo_fs [] demo_uuid).lines.contains
        ("UUID=" ++ demo_uuid "/dev/sda3" ++ " swap swap defaults 0 0") = true)
    ∧ ((auto_fstab ⟨"automatic", false, false, ""⟩ demo_mounts demo_fs [] demo_uuid).lines.contains
        ("UUID=" ++ demo_uuid "/dev/sda2" ++ " / ext4 defaults,rw,relatime,data=ordered 0 1") = true)
    ∧ pyIn "data=ordered" "defaults,rw,relatime,data=ordered" = true
    ∧ (auto_fstab ⟨"automatic", false, false, ""⟩ demo_mounts demo_fs [] demo_uuid).lines.getLast?
        = some "tmpfs /tmp tmpfs defaults,noatime,mode=1777 0 0" := by decide

/-- Counterexample to claim C9 as stated: with `/home → /dev/sda5` present
in the DeviceMap but `/dev/sda5` absent from the FilesystemMap, the mount
point is excluded from the generated fstab and no error is raised — but
no warning is emitted either: the skip branch (lines 779-783) is a bare
`continue`, and the whole builder records only `debug` log lines. -/
theorem fstab_skip_is_silent :
    ((auto_fstab ⟨"automatic", false, false, ""⟩
        [("/", "/dev/sda2"), ("/home", "/dev/sda5")] [("/dev/sda2", "ext4")] [] demo_uuid).lines.all
      (fun l => !(pyIn "/home" l)) = true)
    ∧ (auto_fstab ⟨"automatic", false, false, ""⟩
        [("/", "/dev/sda2"), ("/home", "/dev/sda5")] [("/dev/sda2", "ext4")] [] demo_uuid).logs.filter
        (fun e => e.1 == "warning") = []
    ∧ (auto_fstab ⟨"automatic", false, false, ""⟩
        [("/", "/dev/sda2"), ("/home", "/dev/sda5")] [("/dev/sda2", "ext4")] [] demo_uuid).logs.all
        (fun e => e.1 == "debug") = true := by decide

/-- Claim C9 amended: a mount point whose device has no FilesystemMap
entry contributes nothing at all to the builder's output — no fstab line,
no crypttab line, no log record, no flag change and no error — i.e. it is
skipped silently, with no warning. -/
theorem fstab_skips_unresolved_device (st : FstabSettings)
    (fs_devices : List (String × String)) (ssd : List String)
    (uuidOf : String → String) (acc : FstabAcc) (mp pp : String)
    (h : lookupA fs_devices pp = none) :
    fstab_entry st fs_devices ssd uuidOf acc (mp, pp) = acc := by
  simp [fstab_entry, h]

/-- Witness for the amended C9 at the counterexample's input. -/
theorem fstab_skips_unresolved_device_witness :
    fstab_entry ⟨"automatic", false, false, ""⟩ [("/dev/sda2", "ext4")] [] demo_uuid
        { lines := fstab_header, crypttab := [], logs := [], btrfs := false, ruuid := none }
        ("/home", "/dev/sda5")
      = { lines := fstab_header, crypttab := [], logs := [], btrfs := false, ruuid := none } :=
  fstab_skips_unresolved_device ⟨"automatic", false, false, ""⟩ [("/dev/sda2", "ext4")] []
    demo_uuid _ "/home" "/dev/sda5" (by decide)

/-- Claim C10: SSD classification is asymmetric — a swap entry gets the
`discard` option exactly when its device path is a member of the SSD set,
while the generic path's `is_ssd` flag is set exactly when some SSD
identifier occurs as a substring of the device path; concretely, with
SsdSet `{/dev/sda}` the `/` entry on `/dev/sda2` gets the SSD options
`defaults,rw,noatime,discard` while the swap entry on `/dev/sda3` gets
plain `defaults` despite `/dev/sda` being a substring of `/dev/sda3`. -/
theorem ssd_classification_asymmetry (ssd : List String) (partition_path : String) :
    (swap_opts ssd partition_path = "defaults,discard" ↔ partition_path ∈ ssd)
    ∧ (is_ssd_check ssd partition_path = true
        ↔ ∃ d ∈ ssd, pyIn d partition_path = true)
    ∧ is_ssd_check ["/dev/sda"] "/dev/sda2" = true
    ∧ swap_opts ["/dev/sda"] "/dev/sda3" = "defaults"
    ∧ ("/dev/sda3" ∉ (["/dev/sda"] : List String) ∧ pyIn "/dev/sda" "/dev/sda3" = true)
    ∧ (auto_fstab ⟨"automatic", false, false, ""⟩ demo_mounts demo_fs ["/dev/sda"] demo_uuid).lines.contains
        ("UUID=" ++ demo_uuid "/dev/sda2" ++ " / ext4 defaults,rw,noatime,discard 0 1") = true
    ∧ (auto_fstab ⟨"automatic", false, false, ""⟩ demo_mounts demo_fs ["/dev/sda"] demo_uuid).lines.contains
        ("UUID=" ++ demo_uuid "/dev/sda3" ++ " swap swap defaults 0 0") = true := by
  refine ⟨?_, ?_, by decide, by decide, by decide, by decide, by decide⟩
  · unfold swap_opts
    split_ifs with h
    · exact ⟨fun _ => h, fun _ => rfl⟩
    · exact ⟨fun hc => absurd hc (by decide), fun hm => absurd hm h⟩
  · simp [is_ssd_check, List.any_eq_true]

end Thus
